import Mathlib

/-!
Verification of the BOM document-processing pipeline (backend/agents).

Shallow embedding of the Python sources:
  backend/agents/agent_orchestrator.py
  backend/agents/translation_agent.py
  backend/agents/extraction_agent.py
  backend/models/schemas.py
  backend/utils/gemini_client.py

Python dict records that the orchestrator inspects key-by-key are modelled
as association lists over a small value type `FVal`; Python exceptions are
modelled with `Except String`; float literals are modelled as rationals.
The collaborators whose code lives outside these files (KnowledgeBase,
ItemMatcher, SupplierBOMAgent, ComparisonAgent) are abstract behaviours
passed in as parameters, matching how the orchestrator treats them.
-/

/-- Scalar values appearing in the record dicts exchanged between stages.
Python floats are modelled as rationals. -/
inductive FVal where
  | str (s : String)
  | int (n : Int)
  | rat (q : ℚ)
  | bool (b : Bool)
deriving DecidableEq, Repr

/-- A Python dict record: an insertion-ordered association list. -/
abbrev Dict := List (String × FVal)

/-- Python `d.get(key, default)` on a record dict. -/
def dictGetD (d : Dict) (k : String) (dflt : FVal) : FVal :=
  match d.find? (fun p => p.1 == k) with
  | some p => p.2
  | none => dflt

/-- Python `key in d` / presence of a key in a record dict. -/
def hasKey (d : Dict) (k : String) : Bool :=
  d.any (fun p => p.1 == k)

/-- Python truthiness of a scalar value. -/
def FVal.truthy : FVal → Bool
  | .str s => !(s == "")
  | .int n => !(n == 0)
  | .rat q => !(q == 0)
  | .bool b => b

/-- Whether a scalar value is an int (for shape checks on records). -/
def FVal.isInt : FVal → Bool
  | .int _ => true
  | _ => false

/-- Whether a scalar value is a bool (for shape checks on records). -/
def FVal.isBool : FVal → Bool
  | .bool _ => true
  | _ => false

/-! ## Extraction agent (backend/agents/extraction_agent.py)

`ExtractionAgent.extract_materials_with_qa_classification(content)` builds a
hard-coded single mock material; its body is pure, so the surrounding
`try/except` can never fire and the function is total. -/

/-- The single hard-coded material dict built by the extraction agent. -/
def mockMaterial : Dict :=
  [("qa_material_name", .str "Sample Material 1"),
   ("qa_excerpt", .str "Sample excerpt from document"),
   ("part_number", .str "P001"),
   ("quantity", .str "10"),
   ("unit_of_measure", .str "pcs"),
   ("vendor_name", .str "Sample Vendor"),
   ("qa_classification_label", .int 1),
   ("qa_confidence_level", .str "high"),
   ("qc_process_step", .str "Step 1"),
   ("consumable_jigs_tools", .bool false)]

/-- The dict returned by `extract_materials_with_qa_classification`. -/
structure ExtractionResult where
  materials : List Dict
  extraction_confidence : ℚ
  total_extracted : Nat
deriving DecidableEq, Repr

/-- `ExtractionAgent.extract_materials_with_qa_classification`: returns the
fixed mock material list regardless of `content`. -/
def extract_materials_with_qa_classification (content : String) : ExtractionResult :=
  { materials := [mockMaterial]
    extraction_confidence := 9 / 10
    total_extracted := [mockMaterial].length }

/-! ## Translation agent (backend/agents/translation_agent.py)

`TranslationAgent.process_document` reads the file and passes the content
through unchanged (`translated_content = content`); on a read failure it
logs and re-raises. The gemini client held by the agent is never used, so
the function is parametric in it. -/

/-- The dict returned by `TranslationAgent.process_document`. -/
structure TranslationResult where
  original_content : String
  translated_content : String
  source_language : String
  target_language : String
  translation_confidence : ℚ
deriving DecidableEq, Repr

/-- A filesystem for reading documents: path to content, or a raised error. -/
abbrev FileReader := String → Except String String

/-- `TranslationAgent.process_document`, parametric in the gemini client `g`
(of arbitrary type `G`) the agent was constructed with. -/
def TranslationAgent.process_document {G : Type} (g : G) (fs : FileReader)
    (document_path : String) (source_language : String := "ja")
    (target_language : String := "en") : Except String TranslationResult :=
  match fs document_path with
  | .ok content =>
      .ok { original_content := content
            translated_content := content
            source_language := source_language
            target_language := target_language
            translation_confidence := 95 / 100 }
  | .error e => .error e

/-! ## Classification summarizer (agent_orchestrator.py, lines 177-196) -/

/-- The `confidence_distribution` dict, initialised `{high:0, medium:0, low:0}`. -/
structure ConfDist where
  high : Nat
  medium : Nat
  low : Nat
deriving DecidableEq, Repr

/-- `confidence_distribution[level] += 1` guarded by
`if confidence_level in confidence_distribution`. -/
def bumpDist (d : ConfDist) (s : String) : ConfDist :=
  if s = "high" then { d with high := d.high + 1 }
  else if s = "medium" then { d with medium := d.medium + 1 }
  else if s = "low" then { d with low := d.low + 1 }
  else d

/-- `classification_counts[label] = classification_counts.get(label, 0) + 1`
on an insertion-ordered dict keyed by label values. -/
def bumpCount (counts : List (FVal × Nat)) (label : FVal) : List (FVal × Nat) :=
  match counts.find? (fun p => p.1 == label) with
  | some _ => counts.map (fun p => if p.1 == label then (p.1, p.2 + 1) else p)
  | none => counts ++ [(label, 1)]

/-- The dict returned by `_generate_qa_classification_summary`. -/
structure QASummary where
  classification_counts : List (FVal × Nat)
  confidence_distribution : ConfDist
  total_items : Nat
deriving DecidableEq, Repr

/-- One iteration of the loop in `_generate_qa_classification_summary`.
`match.get('qa_confidence_level', 'medium').lower()` raises AttributeError
when the stored value is not a string. -/
def qaSummaryStep (st : List (FVal × Nat) × ConfDist) (m : Dict) :
    Except String (List (FVal × Nat) × ConfDist) :=
  let label := dictGetD m "qa_classification_label" (.int 5)
  let counts := bumpCount st.1 label
  match dictGetD m "qa_confidence_level" (.str "medium") with
  | .str s0 => .ok (counts, bumpDist st.2 s0.toLower)
  | _ => .error "AttributeError: object has no attribute lower"

/-- `AgentOrchestrator._generate_qa_classification_summary(matches)`
(`matches` is a Lean keyword, so the argument is named `ms`). -/
def generate_qa_classification_summary (ms : List Dict) : Except String QASummary := do
  let st ← ms.foldlM qaSummaryStep ([], ⟨0, 0, 0⟩)
  pure { classification_counts := st.1
         confidence_distribution := st.2
         total_items := ms.length }

/-- The effective confidence key of a match record, as the loop computes it:
the stored string lowercased, `"medium"` when the field is absent, and no
value (AttributeError) when the stored value is not a string. -/
def effConf (m : Dict) : Option String :=
  match dictGetD m "qa_confidence_level" (.str "medium") with
  | .str s0 => some s0.toLower
  | _ => none

/-! ## Stage-result persistence (agent_orchestrator.py, lines 198-210)

`_save_stage_result` wraps the whole body (mkdir + json.dump) in
`try/except Exception`, logging a warning on failure.  The filesystem is
modelled by which of the two operations would raise. -/

/-- State of the results directory: whether `mkdir` or the JSON write
would raise, and with what message. -/
structure FS where
  mkdirFails : Option String
  writeFails : Option String

/-- The body of `_save_stage_result` before the `except` clause:
`Path(...).mkdir(...)` then `json.dump(...)`, either of which may raise. -/
def save_stage_body (fs : FS) : Except String Unit :=
  match fs.mkdirFails with
  | some e => .error e
  | none =>
    match fs.writeFails with
    | some e => .error e
    | none => .ok ()

/-- Observable outcome of `_save_stage_result`: saved, or warning logged. -/
inductive SaveOutcome where
  | saved
  | warned (msg : String)
deriving DecidableEq, Repr

/-- `AgentOrchestrator._save_stage_result(workflow_id, stage, result)`:
the `try/except Exception` catches every failure of the body and logs it. -/
def save_stage_result (fs : FS) (workflow_id stage : String) :
    Except String SaveOutcome :=
  match save_stage_body fs with
  | .ok _ => .ok .saved
  | .error e => .ok (.warned ("Failed to save stage result: " ++ e))

/-! ## Orchestrator state (agent_orchestrator.py, lines 22-41)

`KnowledgeBase`, `ItemMatcher`, `SupplierBOMAgent` and `ComparisonAgent`
live outside the given sources; the orchestrator only calls
`knowledge_base.get_processing_stats()`, `item_matcher.match_items_with_knowledge_base(...)`
and `comparison_agent.compare_materials(...)`, so they are modelled as
abstract behaviours. -/

/-- Abstract `KnowledgeBase`: the orchestrator only reads its
`get_processing_stats()` result (which per its contract never raises). -/
structure KB where
  stats : Dict

/-- Abstract `ItemMatcher`: `match_items_with_knowledge_base(materials,
supplier_items, workflow_id)`, a call that may raise. -/
structure Matcher where
  run : List Dict → List Dict → String → Except String (List Dict)

/-- The orchestrator fields set up in `AgentOrchestrator.__init__`:
`knowledge_base` and `item_matcher` are both `None` when initialisation
of either raised. -/
structure Orchestrator where
  knowledge_base : Option KB
  item_matcher : Option Matcher

/-- The `try/except` in `AgentOrchestrator.__init__` (lines 33-39):
`kbInit` is the outcome of `KnowledgeBase()` followed by
`ItemMatcher(knowledge_base)`; on any exception both fields become `None`
and the constructor itself does not raise. -/
def AgentOrchestrator.init (kbInit : Except String (KB × Matcher)) : Orchestrator :=
  match kbInit with
  | .ok km => { knowledge_base := some km.1, item_matcher := some km.2 }
  | .error _ => { knowledge_base := none, item_matcher := none }

/-! ## Stage results as the orchestrator checks them -/

/-- The translation-stage result as inspected by the orchestrator:
`translation_result.get('translated_content')`. `none` for the whole
record models the agent returning `None`. -/
structure TrStage where
  translated_content : Option String
deriving DecidableEq, Repr

/-- `not translation_result or not translation_result.get('translated_content')`:
returns the usable content, or `none` when the check fires (record absent,
field absent, or empty string — all falsy in Python). -/
def checkTranslated : Option TrStage → Option String
  | none => none
  | some t =>
    match t.translated_content with
    | none => none
    | some s => if s = "" then none else some s

/-- The extraction-stage result as inspected by the orchestrator. -/
structure ExStage where
  materials : Option (List Dict)
deriving DecidableEq, Repr

/-- `not extraction_result or not extraction_result.get('materials')`:
returns the usable material list, or `none` when the check fires. -/
def checkMaterials : Option ExStage → Option (List Dict)
  | none => none
  | some e =>
    match e.materials with
    | none => none
    | some ms => if ms.isEmpty then none else some ms

/-- The supplier-BOM-stage result as inspected by the orchestrator. -/
structure SupStage where
  items : Option (List Dict)
deriving DecidableEq, Repr

/-- `not supplier_result or not supplier_result.get('items')`:
returns the usable item list, or `none` when the check fires. -/
def checkItems : Option SupStage → Option (List Dict)
  | none => none
  | some r =>
    match r.items with
    | none => none
    | some xs => if xs.isEmpty then none else some xs

/-! ## Progress callbacks and the pipeline effect -/

/-- One invocation of the progress callback:
`progress_callback(stage, progress, message)`. -/
structure CbEvent where
  stage : String
  progress : ℚ
  message : String
deriving DecidableEq, Repr

/-- Behaviour of a supplied progress callback: it may return or raise. -/
abbrev CbFun := CbEvent → Except String Unit

/-- Pipeline effect: a possibly-raising computation that also accumulates
the sequence of callback invocations attempted so far. -/
def PM (α : Type) : Type := List CbEvent → Except String α × List CbEvent

instance : Monad PM where
  pure a := fun tr => (Except.ok a, tr)
  bind x f := fun tr =>
    match x tr with
    | (Except.ok a, tr2) => f a tr2
    | (Except.error e, tr2) => (Except.error e, tr2)

/-- `if progress_callback: await progress_callback(stage, progress, message)`.
The invocation is recorded even when the callback raises; an absent
callback records nothing and cannot fail. -/
def emitCb (cb : Option CbFun) (stage : String) (progress : ℚ) (msg : String) :
    PM Unit :=
  fun tr =>
    match cb with
    | none => (Except.ok (), tr)
    | some f => (f ⟨stage, progress, msg⟩, tr ++ [⟨stage, progress, msg⟩])

/-- Lift a plain possibly-raising computation into the pipeline effect. -/
def liftE {α : Type} (x : Except String α) : PM α := fun tr => (x, tr)

/-! ## Final-result assembly (agent_orchestrator.py, lines 128-142) -/

/-- Python `m.get('confidence_score', 0) > 0.5`: numeric comparison, raising
TypeError when the stored value is a string (bools compare as 0/1). -/
def fvalGtHalf : FVal → Except String Bool
  | .int n => .ok (decide ((1 : ℚ) / 2 < (n : ℚ)))
  | .rat q => .ok (decide ((1 : ℚ) / 2 < q))
  | .bool b => .ok (decide ((1 : ℚ) / 2 < if b then (1 : ℚ) else 0))
  | .str _ => .error "TypeError: not supported between instances of str and float"

/-- `len([m for m in enhanced_matches if m.get('confidence_score', 0) > 0.5])`. -/
def countSuccessful (ms : List Dict) : Except String Nat :=
  ms.foldlM
    (fun acc m => do
      let b ← fvalGtHalf (dictGetD m "confidence_score" (.int 0))
      pure (if b then acc + 1 else acc))
    0

/-- `len([m for m in enhanced_matches if m.get('has_previous_match', False)])`. -/
def countKbMatches (ms : List Dict) : Nat :=
  (ms.filter (fun m => (dictGetD m "has_previous_match" (.bool false)).truthy)).length

/-- The `summary` sub-dict of the final result. -/
structure Summary where
  total_materials : Nat
  total_supplier_items : Nat
  successful_matches : Nat
  knowledge_base_matches : Nat
  processing_date : String
  enhanced_matching : Bool
deriving DecidableEq, Repr

/-- The `final_result` dict returned by `process_documents_enhanced`
(`matches` is a Lean keyword, so the field is named `matches_`). -/
structure FinalResult where
  workflow_id : String
  matches_ : List Dict
  summary : Summary
  knowledge_base_stats : Dict
  qa_classification_summary : QASummary
deriving DecidableEq, Repr

/-- Lines 129-142: building `final_result`.  `now` stands for
`datetime.utcnow().isoformat()`.  The aggregate computations may raise on
ill-typed match records; `knowledge_base_stats` is
`self.knowledge_base.get_processing_stats() if self.knowledge_base else {}`. -/
def buildFinalResult (o : Orchestrator) (now workflow_id : String)
    (mats items ms : List Dict) : Except String FinalResult :=
  match countSuccessful ms with
  | .error e => .error e
  | .ok succ =>
  match generate_qa_classification_summary ms with
  | .error e => .error e
  | .ok qa =>
  .ok { workflow_id := workflow_id
        matches_ := ms
        summary :=
          { total_materials := mats.length
            total_supplier_items := items.length
            successful_matches := succ
            knowledge_base_matches := countKbMatches ms
            processing_date := now
            enhanced_matching := true }
        knowledge_base_stats :=
          match o.knowledge_base with
          | some kb => kb.stats
          | none => []
        qa_classification_summary := qa }

/-! ## The enhanced pipeline (agent_orchestrator.py, lines 43-156) -/

/-- Behaviour of the stage collaborators for one run: what
`translation_agent.process_document`, `extraction_agent.extract_materials_with_qa_classification`,
`supplier_bom_agent.process_supplier_bom` and
`comparison_agent.compare_materials` return (or raise), plus the timestamp. -/
structure PipelineEnv where
  translation : Except String (Option TrStage)
  extraction : String → Except String (Option ExStage)
  supplier : Except String (Option SupStage)
  comparison : List Dict → List Dict → Except String (List Dict)
  now : String

/-- The body of the `try` block of `process_documents_enhanced`:
the four stages in order, with milestone callbacks, best-effort stage
saves, and the usable-output checks that raise `Exception(...)`. -/
def processBody (o : Orchestrator) (env : PipelineEnv) (fs : FS)
    (workflow_id : String) (cb : Option CbFun) : PM FinalResult := do
  emitCb cb "translation" 5 "Translation agent processing QA document..."
  let translation_result ← liftE env.translation
  let _ ← liftE (save_stage_result fs workflow_id "translation")
  match checkTranslated translation_result with
  | none => liftE (.error "Translation failed - no translated content received")
  | some content => do
    emitCb cb "translation" 30 "Translation completed successfully"
    emitCb cb "extraction" 35 "Extraction agent processing materials with QA classification..."
    let extraction_result ← liftE (env.extraction content)
    let _ ← liftE (save_stage_result fs workflow_id "extraction")
    match checkMaterials extraction_result with
    | none => liftE (.error "Material extraction failed - no materials extracted")
    | some extracted_materials => do
      emitCb cb "extraction" 60
        ("Extracted " ++ toString extracted_materials.length ++ " materials with QA classification")
      emitCb cb "supplier_bom" 65 "Supplier BOM agent processing Excel/CSV data..."
      let supplier_result ← liftE env.supplier
      let _ ← liftE (save_stage_result fs workflow_id "supplier_bom")
      match checkItems supplier_result with
      | none => liftE (.error "Supplier BOM processing failed - no items extracted")
      | some supplier_items => do
        emitCb cb "supplier_bom" 80
          ("Processed " ++ toString supplier_items.length ++ " supplier BOM items")
        emitCb cb "comparison" 85 "Enhanced comparison agent using knowledge base..."
        let enhanced_matches ← liftE
          (match o.item_matcher with
           | some m => m.run extracted_materials supplier_items workflow_id
           | none => env.comparison extracted_materials supplier_items)
        emitCb cb "comparison" 95 "Knowledge base matching completed"
        let final_result ← liftE
          (buildFinalResult o env.now workflow_id extracted_materials supplier_items enhanced_matches)
        let _ ← liftE (save_stage_result fs workflow_id "final")
        emitCb cb "completed" 100 "Processing completed successfully"
        pure final_result

/-- `AgentOrchestrator.process_documents_enhanced`: the `try` body, plus the
`except` clause (lines 152-156) that reports the failure through the
callback — itself a call that may raise, replacing the exception — and
re-raises.  Returns the outcome together with the full sequence of
callback invocations attempted. -/
def process_documents_enhanced (o : Orchestrator) (env : PipelineEnv) (fs : FS)
    (workflow_id : String) (cb : Option CbFun) :
    Except String FinalResult × List CbEvent :=
  match processBody o env fs workflow_id cb [] with
  | (Except.ok r, tr) => (Except.ok r, tr)
  | (Except.error e, tr) =>
    match cb with
    | none => (Except.error e, tr)
    | some f =>
      let ev : CbEvent := ⟨"error", 0, "Processing failed: " ++ e⟩
      match f ev with
      | Except.ok _ => (Except.error e, tr ++ [ev])
      | Except.error e2 => (Except.error e2, tr ++ [ev])

/-! ## Legacy entry point (agent_orchestrator.py, lines 158-175) -/

/-- `BOMComparisonResult` from backend/models/schemas.py
(`matches` is a Lean keyword, so the field is named `matches_`). -/
structure BOMComparisonResult where
  workflow_id : String
  matches_ : List Dict
  summary : Summary
deriving DecidableEq, Repr

/-- `AgentOrchestrator.process_documents`: awaits the enhanced pipeline and
re-packages `workflow_id`, `matches` and `summary` into the legacy
`BOMComparisonResult`; an exception propagates unchanged. -/
def process_documents (o : Orchestrator) (env : PipelineEnv) (fs : FS)
    (workflow_id : String) (cb : Option CbFun) :
    Except String BOMComparisonResult × List CbEvent :=
  match process_documents_enhanced o env fs workflow_id cb with
  | (Except.ok r, tr) =>
    (Except.ok { workflow_id := r.workflow_id, matches_ := r.matches_, summary := r.summary }, tr)
  | (Except.error e, tr) => (Except.error e, tr)

/-! ## Concrete sample data for witnesses and counterexamples -/

/-- A well-typed sample match record as the matcher or comparison agent
would produce. -/
def sampleMatch : Dict :=
  [("qa_classification_label", .int 1),
   ("qa_confidence_level", .str "High"),
   ("confidence_score", .rat (9 / 10)),
   ("has_previous_match", .bool true)]

/-- A healthy filesystem for the results directory. -/
def goodFS : FS := { mkdirFails := none, writeFails := none }

/-- A failing filesystem: `mkdir` raises. -/
def badFS : FS := { mkdirFails := some "disk full", writeFails := none }

/-- Collaborator behaviour for a fully successful run. -/
def goodEnv : PipelineEnv :=
  { translation := Except.ok (some { translated_content := some "hello" })
    extraction := fun _ => Except.ok (some { materials := some [mockMaterial] })
    supplier := Except.ok (some { items := some [[("item_name", FVal.str "Bolt")]] })
    comparison := fun _ _ => Except.ok [sampleMatch]
    now := "2026-01-01T00:00:00" }

/-- Collaborator behaviour where the translation stage returns `None`. -/
def envBadTr : PipelineEnv :=
  { goodEnv with translation := Except.ok none }

/-- An orchestrator whose knowledge-base initialisation raised. -/
def noKb : Orchestrator := AgentOrchestrator.init (Except.error "db down")

/-- A progress callback that always returns. -/
def okCb : CbFun := fun _ => Except.ok ()

/-- A progress callback that always raises. -/
def failingCb : CbFun := fun _ => Except.error "callback boom"

/-- The final result of the successful fallback run
(`noKb` orchestrator, `goodEnv` collaborators). -/
def goodFinal : FinalResult :=
  { workflow_id := "wf1"
    matches_ := [sampleMatch]
    summary :=
      { total_materials := 1
        total_supplier_items := 1
        successful_matches := 1
        knowledge_base_matches := 1
        processing_date := "2026-01-01T00:00:00"
        enhanced_matching := true }
    knowledge_base_stats := []
    qa_classification_summary :=
      { classification_counts := [(FVal.int 1, 1)]
        confidence_distribution := { high := 1, medium := 0, low := 0 }
        total_items := 1 } }

/-- Sample matches for the summarizer: one `High`, one with the field
absent, one with an unrecognized confidence string. -/
def msSample : List Dict :=
  [[("qa_classification_label", FVal.int 1), ("qa_confidence_level", FVal.str "High")],
   [],
   [("qa_confidence_level", FVal.str "unknown")]]

/-! ## Theorems -/

/-- Running a bind in the pipeline effect. -/
theorem pm_bind_run {α β : Type} (x : PM α) (k : α → PM β) (tr : List CbEvent) :
    (x >>= k) tr =
      match x tr with
      | (Except.ok a, tr2) => k a tr2
      | (Except.error e, tr2) => (Except.error e, tr2) := rfl

/-- Running `pure` in the pipeline effect. -/
theorem pm_pure_run {α : Type} (a : α) (tr : List CbEvent) :
    (pure a : PM α) tr = (Except.ok a, tr) := rfl

/-- Running an attempted callback invocation when a callback is supplied. -/
theorem emitCb_some (f : CbFun) (st : String) (p : ℚ) (m : String) (tr : List CbEvent) :
    emitCb (some f) st p m tr = (f ⟨st, p, m⟩, tr ++ [⟨st, p, m⟩]) := rfl

/-- Running an attempted callback invocation when no callback is supplied. -/
theorem emitCb_none (st : String) (p : ℚ) (m : String) (tr : List CbEvent) :
    emitCb none st p m tr = (Except.ok (), tr) := rfl

/-- Running a lifted plain computation. -/
theorem liftE_run {α : Type} (x : Except String α) (tr : List CbEvent) :
    liftE x tr = (x, tr) := rfl

/-- A discarded stage save is invisible to the rest of the pipeline:
`_save_stage_result` never raises, so binding it and dropping the outcome
is the identity on the continuation. -/
theorem save_bind {α : Type} (fs : FS) (wf st : String) (k : PM α) :
    (liftE (save_stage_result fs wf st) >>= fun _ => k) = k := by
  funext tr
  unfold save_stage_result
  cases save_stage_body fs <;> rfl

/-- Claim C1, counterexample: on a run where every stage has usable output
(witnessed by the non-raising callback completing the workflow), a raising
progress callback aborts the pipeline at the very first milestone — the
callback's exception becomes the workflow result and no later stage event
is ever attempted — instead of the pipeline continuing. -/
theorem callback_failure_counterexample :
    (process_documents_enhanced noKb goodEnv goodFS "wf1" (some failingCb)).fst =
      Except.error "callback boom" ∧
    (process_documents_enhanced noKb goodEnv goodFS "wf1" (some failingCb)).snd =
      [{ stage := "translation", progress := 5,
         message := "Translation agent processing QA document..." },
       { stage := "error", progress := 0,
         message := "Processing failed: callback boom" }] ∧
    (process_documents_enhanced noKb goodEnv goodFS "wf1" (some okCb)).fst =
      Except.ok goodFinal := by
  refine ⟨rfl, rfl, ?_⟩
  with_unfolding_all rfl

/-- Claim C1, amended: a failure of the progress callback stops the
pipeline.  If the callback raises at the first milestone, the exception
propagates into the orchestrator's error handler, which makes one
best-effort report attempt with stage `"error"` and re-raises: the run
ends in an error and no stage beyond the first milestone is attempted. -/
theorem callback_failure_aborts (o : Orchestrator) (env : PipelineEnv) (fs : FS)
    (wf : String) (f : CbFun) (e : String)
    (hf : f { stage := "translation", progress := 5,
              message := "Translation agent processing QA document..." } =
            Except.error e) :
    (∃ m, (process_documents_enhanced o env fs wf (some f)).fst = Except.error m) ∧
    (process_documents_enhanced o env fs wf (some f)).snd =
      [{ stage := "translation", progress := 5,
         message := "Translation agent processing QA document..." },
       { stage := "error", progress := 0, message := "Processing failed: " ++ e }] := by
  have h1 : processBody o env fs wf (some f) [] =
      (Except.error e,
       [{ stage := "translation", progress := 5,
          message := "Translation agent processing QA document..." }]) := by
    unfold processBody
    rw [pm_bind_run, emitCb_some, hf]
    with_unfolding_all rfl
  unfold process_documents_enhanced
  rw [h1]
  cases hf2 : f { stage := "error", progress := 0, message := "Processing failed: " ++ e } with
  | ok u => exact ⟨⟨e, by simp [hf2]⟩, by simp [hf2]⟩
  | error e2 => exact ⟨⟨e2, by simp [hf2]⟩, by simp [hf2]⟩

/-- Witness for the amended C1 theorem at the always-raising callback. -/
theorem callback_failure_aborts_witness :
    (∃ m, (process_documents_enhanced noKb goodEnv goodFS "wf1" (some failingCb)).fst =
      Except.error m) ∧
    (process_documents_enhanced noKb goodEnv goodFS "wf1" (some failingCb)).snd =
      [{ stage := "translation", progress := 5,
         message := "Translation agent processing QA document..." },
       { stage := "error", progress := 0,
         message := "Processing failed: " ++ "callback boom" }] :=
  callback_failure_aborts noKb goodEnv goodFS "wf1" failingCb "callback boom" rfl

/-- Claim C3: `_save_stage_result` never raises — every failure of its body
(directory creation or JSON write) is caught and logged as a warning — and
the enhanced workflow is unaffected by the filesystem behaviour of the
stage saves. -/
theorem save_stage_result_never_raises (fs fs2 : FS) (wf st : String)
    (o : Orchestrator) (env : PipelineEnv) (cb : Option CbFun) :
    (∃ out, save_stage_result fs wf st = Except.ok out) ∧
    (∀ e, save_stage_body fs = Except.error e →
      save_stage_result fs wf st =
        Except.ok (.warned ("Failed to save stage result: " ++ e))) ∧
    process_documents_enhanced o env fs wf cb =
      process_documents_enhanced o env fs2 wf cb := by
  refine ⟨?_, ?_, ?_⟩
  · unfold save_stage_result
    cases save_stage_body fs
    · exact ⟨_, rfl⟩
    · exact ⟨_, rfl⟩
  · intro e he
    unfold save_stage_result
    rw [he]
  · unfold process_documents_enhanced
    have hb : processBody o env fs wf cb = processBody o env fs2 wf cb := by
      unfold processBody
      simp only [save_bind]
    rw [hb]

/-- Witness for the C3 theorem: a failing `mkdir` is caught and logged. -/
theorem save_stage_result_never_raises_witness :
    save_stage_result badFS "wf1" "translation" =
      Except.ok (.warned ("Failed to save stage result: " ++ "disk full")) :=
  (save_stage_result_never_raises badFS goodFS "wf1" "translation" noKb goodEnv none).2.1
    "disk full" rfl

/-- Claim C2: whenever a stage produces no usable output — the translation
result without usable `translated_content`, the extraction result without
usable `materials`, or the supplier-BOM result without usable `items` —
`process_documents_enhanced` raises the corresponding stage exception to
its caller, and when a progress callback is supplied the last invocation
reported through it carries stage `"error"` before the re-raise (with no
callback, nothing is reported and the exception still propagates). -/
theorem stage_failure_propagates (o : Orchestrator) (env : PipelineEnv) (fs : FS)
    (wf : String) (cb : Option CbFun)
    (hcb : cb = none ∨ ∃ f, cb = some f ∧ ∀ ev, f ev = Except.ok ()) :
    (∀ v, env.translation = Except.ok v → checkTranslated v = none →
      (process_documents_enhanced o env fs wf cb).fst =
        Except.error "Translation failed - no translated content received" ∧
      (process_documents_enhanced o env fs wf cb).snd =
        (match cb with
         | none => []
         | some _ =>
           [{ stage := "translation", progress := 5,
              message := "Translation agent processing QA document..." },
            { stage := "error", progress := 0,
              message := "Processing failed: " ++ "Translation failed - no translated content received" }])) ∧
    (∀ v s w, env.translation = Except.ok v → checkTranslated v = some s →
      env.extraction s = Except.ok w → checkMaterials w = none →
      (process_documents_enhanced o env fs wf cb).fst =
        Except.error "Material extraction failed - no materials extracted" ∧
      (process_documents_enhanced o env fs wf cb).snd =
        (match cb with
         | none => []
         | some _ =>
           [{ stage := "translation", progress := 5,
              message := "Translation agent processing QA document..." },
            { stage := "translation", progress := 30,
              message := "Translation completed successfully" },
            { stage := "extraction", progress := 35,
              message := "Extraction agent processing materials with QA classification..." },
            { stage := "error", progress := 0,
              message := "Processing failed: " ++ "Material extraction failed - no materials extracted" }])) ∧
    (∀ v s w mats u, env.translation = Except.ok v → checkTranslated v = some s →
      env.extraction s = Except.ok w → checkMaterials w = some mats →
      env.supplier = Except.ok u → checkItems u = none →
      (process_documents_enhanced o env fs wf cb).fst =
        Except.error "Supplier BOM processing failed - no items extracted" ∧
      (process_documents_enhanced o env fs wf cb).snd =
        (match cb with
         | none => []
         | some _ =>
           [{ stage := "translation", progress := 5,
              message := "Translation agent processing QA document..." },
            { stage := "translation", progress := 30,
              message := "Translation completed successfully" },
            { stage := "extraction", progress := 35,
              message := "Extraction agent processing materials with QA classification..." },
            { stage := "extraction", progress := 60,
              message := "Extracted " ++ toString mats.length ++ " materials with QA classification" },
            { stage := "supplier_bom", progress := 65,
              message := "Supplier BOM agent processing Excel/CSV data..." },
            { stage := "error", progress := 0,
              message := "Processing failed: " ++ "Supplier BOM processing failed - no items extracted" }])) := by
  refine ⟨?_, ?_, ?_⟩
  · intro v ht hchk
    rcases hcb with hnone | ⟨f, hsome, hf⟩
    · subst hnone
      refine ⟨?_, ?_⟩ <;>
        simp only [process_documents_enhanced, processBody, pm_bind_run, liftE_run,
          emitCb_none, save_bind, ht, hchk, List.nil_append, List.cons_append, List.append_nil]
    · subst hsome
      refine ⟨?_, ?_⟩ <;>
        simp only [process_documents_enhanced, processBody, pm_bind_run, liftE_run,
          emitCb_some, hf, save_bind, ht, hchk, List.nil_append, List.cons_append, List.append_nil]
  · intro v s w ht hchk hex hmat
    rcases hcb with hnone | ⟨f, hsome, hf⟩
    · subst hnone
      refine ⟨?_, ?_⟩ <;>
        simp only [process_documents_enhanced, processBody, pm_bind_run, liftE_run,
          emitCb_none, save_bind, ht, hchk, hex, hmat,
          List.nil_append, List.cons_append, List.append_nil]
    · subst hsome
      refine ⟨?_, ?_⟩ <;>
        simp only [process_documents_enhanced, processBody, pm_bind_run, liftE_run,
          emitCb_some, hf, save_bind, ht, hchk, hex, hmat,
          List.nil_append, List.cons_append, List.append_nil]
  · intro v s w mats u ht hchk hex hmat hsp hit
    rcases hcb with hnone | ⟨f, hsome, hf⟩
    · subst hnone
      refine ⟨?_, ?_⟩ <;>
        simp only [process_documents_enhanced, processBody, pm_bind_run, liftE_run,
          emitCb_none, save_bind, ht, hchk, hex, hmat, hsp, hit,
          List.nil_append, List.cons_append, List.append_nil]
    · subst hsome
      refine ⟨?_, ?_⟩ <;>
        simp only [process_documents_enhanced, processBody, pm_bind_run, liftE_run,
          emitCb_some, hf, save_bind, ht, hchk, hex, hmat, hsp, hit,
          List.nil_append, List.cons_append, List.append_nil]

/-- Witness for the C2 theorem: a translation stage returning `None`, with
a supplied (non-raising) callback, ends the run in the translation-stage
exception and reports stage `"error"` last. -/
theorem stage_failure_propagates_witness :
    (process_documents_enhanced noKb envBadTr goodFS "wf1" (some okCb)).fst =
      Except.error "Translation failed - no translated content received" ∧
    (process_documents_enhanced noKb envBadTr goodFS "wf1" (some okCb)).snd =
      [{ stage := "translation", progress := 5,
         message := "Translation agent processing QA document..." },
       { stage := "error", progress := 0,
         message := "Processing failed: " ++ "Translation failed - no translated content received" }] :=
  (stage_failure_propagates noKb envBadTr goodFS "wf1" (some okCb)
    (Or.inr ⟨okCb, rfl, fun ev => rfl⟩)).1 none rfl rfl

/-- Binding a successful `Except` computation runs the continuation. -/
theorem except_bind_ok {α β : Type} (a : α) (g : α → Except String β) :
    (Except.ok a >>= g) = g a := rfl

/-- The `high` bucket after one confidence-distribution update. -/
theorem bumpDist_high (d : ConfDist) (s : String) :
    (bumpDist d s).high = d.high + (if s = "high" then 1 else 0) := by
  unfold bumpDist
  split_ifs <;> simp_all

/-- The `medium` bucket after one confidence-distribution update. -/
theorem bumpDist_medium (d : ConfDist) (s : String) :
    (bumpDist d s).medium = d.medium + (if s = "medium" then 1 else 0) := by
  unfold bumpDist
  split_ifs <;> simp_all

/-- The `low` bucket after one confidence-distribution update. -/
theorem bumpDist_low (d : ConfDist) (s : String) :
    (bumpDist d s).low = d.low + (if s = "low" then 1 else 0) := by
  unfold bumpDist
  split_ifs <;> simp_all

/-- The summarizer loop, over any starting accumulator: when every match
stores a string (or no) confidence value, the loop succeeds and each
bucket grows by the number of matches whose effective confidence key is
that bucket. -/
theorem qaFold_dist (ms : List Dict) :
    ∀ (counts : List (FVal × Nat)) (d : ConfDist),
      (∀ m ∈ ms, (effConf m).isSome) →
      ∃ counts2 d2,
        ms.foldlM qaSummaryStep (counts, d) = Except.ok (counts2, d2) ∧
        d2.high = d.high + ms.countP (fun m => decide (effConf m = some "high")) ∧
        d2.medium = d.medium + ms.countP (fun m => decide (effConf m = some "medium")) ∧
        d2.low = d.low + ms.countP (fun m => decide (effConf m = some "low")) := by
  induction ms with
  | nil =>
    intro counts d h
    exact ⟨counts, d, rfl, by simp, by simp, by simp⟩
  | cons m rest ih =>
    intro counts d h
    have hm := h m (by simp)
    cases hv : dictGetD m "qa_confidence_level" (.str "medium") with
    | str s0 =>
      have hstep : qaSummaryStep (counts, d) m =
          Except.ok (bumpCount counts (dictGetD m "qa_classification_label" (.int 5)),
            bumpDist d s0.toLower) := by
        unfold qaSummaryStep
        rw [hv]
      have heff : effConf m = some s0.toLower := by
        unfold effConf
        rw [hv]
      obtain ⟨c2, d2, heq, hh, hm2, hl⟩ :=
        ih (bumpCount counts (dictGetD m "qa_classification_label" (.int 5)))
          (bumpDist d s0.toLower) (fun x hx => h x (by simp [hx]))
      refine ⟨c2, d2, ?_, ?_, ?_, ?_⟩
      · rw [List.foldlM_cons, hstep, except_bind_ok, heq]
      · rw [hh, bumpDist_high, List.countP_cons]
        simp [heff]
        omega
      · rw [hm2, bumpDist_medium, List.countP_cons]
        simp [heff]
        omega
      · rw [hl, bumpDist_low, List.countP_cons]
        simp [heff]
        omega
    | int n =>
      exfalso
      unfold effConf at hm
      rw [hv] at hm
      simp at hm
    | rat q =>
      exfalso
      unfold effConf at hm
      rw [hv] at hm
      simp at hm
    | bool b =>
      exfalso
      unfold effConf at hm
      rw [hv] at hm
      simp at hm

/-- Claim C6: for any match list whose stored confidence values are
strings (or absent), the summarizer succeeds; `total_items` equals the
length of the input; a match with no `qa_confidence_level` field has
effective key `"medium"` (so it is counted under medium); and each bucket
counts exactly the matches whose lowercased effective key names it — a
match with an unrecognized key is counted in no bucket and raises no
error. -/
theorem qa_summary_counts (ms : List Dict)
    (h : ∀ m ∈ ms, (effConf m).isSome) :
    effConf [] = some "medium" ∧
    ∃ s, generate_qa_classification_summary ms = Except.ok s ∧
      s.total_items = ms.length ∧
      s.confidence_distribution.high = ms.countP (fun m => decide (effConf m = some "high")) ∧
      s.confidence_distribution.medium = ms.countP (fun m => decide (effConf m = some "medium")) ∧
      s.confidence_distribution.low = ms.countP (fun m => decide (effConf m = some "low")) := by
  refine ⟨by with_unfolding_all rfl, ?_⟩
  obtain ⟨c2, d2, heq, hh, hm2, hl⟩ := qaFold_dist ms [] ⟨0, 0, 0⟩ h
  refine ⟨{ classification_counts := c2, confidence_distribution := d2,
            total_items := ms.length }, ?_, rfl, ?_, ?_, ?_⟩
  · unfold generate_qa_classification_summary
    rw [heq, except_bind_ok]
    rfl
  · simpa using hh
  · simpa using hm2
  · simpa using hl

/-- Witness for the C6 theorem on a three-match list: one `High`, one with
the field absent, one with an unrecognized confidence string. -/
theorem qa_summary_counts_witness :
    effConf [] = some "medium" ∧
    ∃ s, generate_qa_classification_summary msSample = Except.ok s ∧
      s.total_items = msSample.length ∧
      s.confidence_distribution.high =
        msSample.countP (fun m => decide (effConf m = some "high")) ∧
      s.confidence_distribution.medium =
        msSample.countP (fun m => decide (effConf m = some "medium")) ∧
      s.confidence_distribution.low =
        msSample.countP (fun m => decide (effConf m = some "low")) :=
  qa_summary_counts msSample
    (by intro m hm; fin_cases hm <;> with_unfolding_all rfl)

/-- The fields of a successfully built final result: `workflow_id` and
`matches` are passed through, and `knowledge_base_stats` comes from the
orchestrator's optional knowledge base (empty dict when it is `None`). -/
theorem buildFinalResult_fields (o : Orchestrator) (now wf : String)
    (mats items ms : List Dict) (r : FinalResult)
    (h : buildFinalResult o now wf mats items ms = Except.ok r) :
    r.workflow_id = wf ∧ r.matches_ = ms ∧
    r.knowledge_base_stats =
      (match o.knowledge_base with | some kb => kb.stats | none => []) := by
  unfold buildFinalResult at h
  cases h1 : countSuccessful ms <;> rw [h1] at h
  · exact absurd h (by simp)
  · cases h2 : generate_qa_classification_summary ms <;> rw [h2] at h
    · exact absurd h (by simp)
    · injection h with h3
      subst h3
      exact ⟨rfl, rfl, rfl⟩

/-- Claim C4: when knowledge-base initialisation raises, the constructor
catches it and leaves `knowledge_base` and `item_matcher` as `None`; a run
of `process_documents_enhanced` (with usable stage outputs) then takes the
fallback comparison path — the returned matches are the comparison
agent's — still completes, and the returned `knowledge_base_stats` is the
empty map. -/
theorem kb_unavailable_fallback_completes (e : String) (env : PipelineEnv) (fs : FS)
    (wf : String) (cb : Option CbFun)
    (v : Option TrStage) (s : String) (w : Option ExStage)
    (mats : List Dict) (u : Option SupStage) (items cms : List Dict) (r : FinalResult)
    (hcb : cb = none ∨ ∃ f, cb = some f ∧ ∀ ev, f ev = Except.ok ())
    (ht : env.translation = Except.ok v) (hchk : checkTranslated v = some s)
    (hex : env.extraction s = Except.ok w) (hmat : checkMaterials w = some mats)
    (hsp : env.supplier = Except.ok u) (hit : checkItems u = some items)
    (hcmp : env.comparison mats items = Except.ok cms)
    (hbuild : buildFinalResult (AgentOrchestrator.init (Except.error e)) env.now wf mats items cms =
      Except.ok r) :
    (AgentOrchestrator.init (Except.error e)).knowledge_base = none ∧
    (AgentOrchestrator.init (Except.error e)).item_matcher = none ∧
    (process_documents_enhanced (AgentOrchestrator.init (Except.error e)) env fs wf cb).fst =
      Except.ok r ∧
    r.matches_ = cms ∧
    r.knowledge_base_stats = [] := by
  have hm : (AgentOrchestrator.init (Except.error e)).item_matcher = none := rfl
  refine ⟨rfl, rfl, ?_, ?_, ?_⟩
  · rcases hcb with hnone | ⟨f, hsome, hf⟩
    · subst hnone
      simp only [process_documents_enhanced, processBody, pm_bind_run, liftE_run,
        emitCb_none, save_bind, ht, hchk, hex, hmat, hsp, hit, hm, hcmp, hbuild,
        List.nil_append, List.cons_append, List.append_nil]
    · subst hsome
      simp only [process_documents_enhanced, processBody, pm_bind_run, liftE_run,
        emitCb_some, hf, save_bind, ht, hchk, hex, hmat, hsp, hit, hm, hcmp, hbuild,
        List.nil_append, List.cons_append, List.append_nil]
  · exact (buildFinalResult_fields _ _ _ _ _ _ _ hbuild).2.1
  · have h3 := (buildFinalResult_fields _ _ _ _ _ _ _ hbuild).2.2
    simpa [AgentOrchestrator.init] using h3

/-- Witness for the C4 theorem on a concrete run with a failed
knowledge-base initialisation. -/
theorem kb_unavailable_fallback_completes_witness :
    noKb.knowledge_base = none ∧
    noKb.item_matcher = none ∧
    (process_documents_enhanced noKb goodEnv goodFS "wf1" none).fst =
      Except.ok goodFinal ∧
    goodFinal.matches_ = [sampleMatch] ∧
    goodFinal.knowledge_base_stats = [] :=
  kb_unavailable_fallback_completes "db down" goodEnv goodFS "wf1" none
    (some { translated_content := some "hello" }) "hello"
    (some { materials := some [mockMaterial] }) [mockMaterial]
    (some { items := some [[("item_name", FVal.str "Bolt")]] })
    [[("item_name", FVal.str "Bolt")]] [sampleMatch] goodFinal
    (Or.inl rfl) rfl rfl rfl rfl rfl rfl rfl (by with_unfolding_all rfl)

/-- Claim C10: whenever the enhanced pipeline succeeds, the legacy
`process_documents` succeeds on the same input, returning a
`BOMComparisonResult` whose `workflow_id`, `matches` and `summary` are
exactly the corresponding entries of the enhanced result, with the same
callback trace. -/
theorem legacy_repackages_enhanced (o : Orchestrator) (env : PipelineEnv) (fs : FS)
    (wf : String) (cb : Option CbFun) (r : FinalResult) (tr : List CbEvent)
    (h : process_documents_enhanced o env fs wf cb = (Except.ok r, tr)) :
    process_documents o env fs wf cb =
      (Except.ok { workflow_id := r.workflow_id, matches_ := r.matches_, summary := r.summary },
       tr) := by
  unfold process_documents
  rw [h]

/-- Witness for the C10 theorem on a concrete successful run. -/
theorem legacy_repackages_enhanced_witness :
    process_documents noKb goodEnv goodFS "wf1" none =
      (Except.ok { workflow_id := goodFinal.workflow_id
                   matches_ := goodFinal.matches_
                   summary := goodFinal.summary },
       []) :=
  legacy_repackages_enhanced noKb goodEnv goodFS "wf1" none goodFinal []
    (by with_unfolding_all rfl)

/-- Claim C5: the classification summarizer applied to the empty match list
returns exactly empty classification counts, a zeroed
high/medium/low confidence distribution, and zero total items. -/
theorem qa_summary_empty :
    generate_qa_classification_summary [] =
      Except.ok { classification_counts := []
                  confidence_distribution := { high := 0, medium := 0, low := 0 }
                  total_items := 0 } := rfl

/-- Claim C9: `extract_materials_with_qa_classification` is a constant
function of its input: any two contents (including the empty string) give
the identical result, namely the single fixed mock material with
extraction confidence 0.9 and total_extracted 1. -/
theorem extraction_is_constant (s t : String) :
    extract_materials_with_qa_classification s =
      extract_materials_with_qa_classification t ∧
    (extract_materials_with_qa_classification s).materials = [mockMaterial] ∧
    (extract_materials_with_qa_classification s).extraction_confidence = (9 : ℚ) / 10 ∧
    (extract_materials_with_qa_classification s).total_extracted = 1 :=
  ⟨rfl, rfl, rfl, rfl⟩

/-- Claim C7, counterexample: the material actually produced by the
extraction stage does not carry the fields `material_name`, `excerpt` or
`is_consumable` claimed for the ExtractedMaterial shape — its keys are
`qa_material_name`, `qa_excerpt` and `consumable_jigs_tools` instead. -/
theorem extraction_shape_counterexample :
    mockMaterial ∈ (extract_materials_with_qa_classification "sample text").materials ∧
    hasKey mockMaterial "material_name" = false ∧
    hasKey mockMaterial "excerpt" = false ∧
    hasKey mockMaterial "is_consumable" = false := by
  refine ⟨?_, ?_, ?_, ?_⟩ <;> decide

/-- Claim C7, amended: every material record produced by the extraction
stage carries the fields `qa_material_name`, `qa_excerpt`, `part_number`,
`quantity`, `vendor_name`, `qa_classification_label` (an int),
`qa_confidence_level` (one of high/medium/low), `qc_process_step`, and
`consumable_jigs_tools` (a bool). -/
theorem extraction_shape_amended (content : String) (m : Dict)
    (hm : m ∈ (extract_materials_with_qa_classification content).materials) :
    hasKey m "qa_material_name" = true ∧
    hasKey m "qa_excerpt" = true ∧
    hasKey m "part_number" = true ∧
    hasKey m "quantity" = true ∧
    hasKey m "vendor_name" = true ∧
    (dictGetD m "qa_classification_label" (.str "")).isInt = true ∧
    dictGetD m "qa_confidence_level" (.str "") ∈
      [FVal.str "high", FVal.str "medium", FVal.str "low"] ∧
    hasKey m "qc_process_step" = true ∧
    (dictGetD m "consumable_jigs_tools" (.str "")).isBool = true := by
  have heq : m = mockMaterial := by
    simpa [extract_materials_with_qa_classification] using hm
  subst heq
  refine ⟨?_, ?_, ?_, ?_, ?_, ?_, ?_, ?_, ?_⟩ <;> decide

/-- Witness for the amended C7 theorem at the concrete produced material. -/
theorem extraction_shape_amended_witness :
    hasKey mockMaterial "qa_material_name" = true ∧
    hasKey mockMaterial "qa_excerpt" = true ∧
    hasKey mockMaterial "part_number" = true ∧
    hasKey mockMaterial "quantity" = true ∧
    hasKey mockMaterial "vendor_name" = true ∧
    (dictGetD mockMaterial "qa_classification_label" (.str "")).isInt = true ∧
    dictGetD mockMaterial "qa_confidence_level" (.str "") ∈
      [FVal.str "high", FVal.str "medium", FVal.str "low"] ∧
    hasKey mockMaterial "qc_process_step" = true ∧
    (dictGetD mockMaterial "consumable_jigs_tools" (.str "")).isBool = true :=
  extraction_shape_amended "" mockMaterial (by decide)

/-- Claim C8: whenever the document file can be read, `process_document`
returns a record whose `translated_content` and `original_content` both
equal the file's exact text, with `translation_confidence` 0.95, and the
result does not depend on the gemini client the agent holds. -/
theorem translation_identity {G G2 : Type} (g : G) (g2 : G2)
    (fs : FileReader) (path c sl tl : String) (h : fs path = Except.ok c) :
    TranslationAgent.process_document g fs path sl tl =
      Except.ok { original_content := c
                  translated_content := c
                  source_language := sl
                  target_language := tl
                  translation_confidence := (95 : ℚ) / 100 } ∧
    TranslationAgent.process_document g fs path sl tl =
      TranslationAgent.process_document g2 fs path sl tl := by
  constructor
  · simp [TranslationAgent.process_document, h]
  · rfl

/-- Witness for the C8 theorem on a concrete one-file filesystem. -/
theorem translation_identity_witness :
    TranslationAgent.process_document () (fun _ => Except.ok "hello doc") "doc.txt" "ja" "en" =
      Except.ok { original_content := "hello doc"
                  translated_content := "hello doc"
                  source_language := "ja"
                  target_language := "en"
                  translation_confidence := (95 : ℚ) / 100 } ∧
    TranslationAgent.process_document () (fun _ => Except.ok "hello doc") "doc.txt" "ja" "en" =
      TranslationAgent.process_document true (fun _ => Except.ok "hello doc") "doc.txt" "ja" "en" :=
  translation_identity () true (fun _ => Except.ok "hello doc") "doc.txt" "hello doc" "ja" "en" rfl
